import Mathlib

/-!
# Verification of the SoSoValue research-article Telegram notifier

Shallow embedding of `src/index.js`: a polling script that scrapes a listing
page with a headless browser, extracts article records, compares the newest
record against a persisted cursor file, and pushes Telegram messages.

External effects are made explicit:
* the scrape result is passed as a parameter (the list of articles the page
  yielded, newest-first);
* the Telegram HTTP POST outcome is an oracle `ok : String → Bool` deciding,
  per message text, whether `axios.post` resolves or rejects;
* the cursor file `last_article_id.txt` is a `Store` (its optional contents);
* message sends are accumulated in a state `St` recording, in order, every
  attempted message text and every successfully delivered one;
* a thrown JS exception is the `Except.error` case.
-/

/-- JS truthiness of an optional string (`undefined` and `""` are falsy). -/
def truthy : Option String → Bool
  | none => false
  | some s => !s.isEmpty

/-- JS `s.includes(pat)`: substring containment, as infix on the char lists. -/
def hasSub (s pat : String) : Bool := decide (pat.data <:+: s.data)

/-- JS `s.trim()`: strip leading and trailing whitespace. Stated structurally
on the char list so that it evaluates by kernel reduction. -/
def trimChars (s : String) : String :=
  ⟨((s.data.dropWhile Char.isWhitespace).reverse.dropWhile Char.isWhitespace).reverse⟩

/-- Contents of the cursor file `last_article_id.txt`; `none` when the file
does not exist. -/
structure Store where
  file : Option String
deriving DecidableEq, Repr

/-- Source `getLastId`: `fs.existsSync(LAST_ID_FILE) ? fs.readFileSync(...).trim() : ''`
(src/index.js line 29). -/
def getLastId (s : Store) : String :=
  match s.file with
  | none => ""
  | some c => trimChars c

/-- Source `saveLastId`: `fs.writeFileSync(LAST_ID_FILE, id, 'utf8')`
(src/index.js line 30). -/
def saveLastId (s : Store) (id : String) : Store :=
  { file := some id }

/-- An article record as returned by `scrapeArticles` (src/index.js
lines 86–90): id, title, and the url derived from the id. -/
structure Article where
  id : String
  title : String
  url : String
deriving DecidableEq, Repr

/-- One raw row extracted from a `li.MuiTimelineItem-root` element before
filtering (src/index.js lines 74–80): `title` is the trimmed text of the
`div.font-bold` child (`none` when that element is absent), `id` is the long
numeric token from the article link (`""` when absent), `when` is the matched
recency token (`""` when the regex does not match). -/
structure RawRow where
  title : Option String
  id : String
  when : String
deriving DecidableEq, Repr

/-- The filter predicate of src/index.js lines 81–83:
`x.title && x.id && (x.when.includes('前') || x.when.includes(today))`. -/
def rowKeep (today : String) (r : RawRow) : Bool :=
  truthy r.title && !r.id.isEmpty && (hasSub r.when "前" || hasSub r.when today)

/-- The rows surviving the filter, in page order. -/
def keptRows (today : String) (rows : List RawRow) : List RawRow :=
  rows.filter (rowKeep today)

/-- The mapping of src/index.js lines 86–90 applied to the kept rows:
`{ id, title, url: 'https://sosovalue.com/tc/research/' + id }`. -/
def scrapeArticles (today : String) (rows : List RawRow) : List Article :=
  (keptRows today rows).map fun r =>
    { id := r.id
      title := r.title.getD ""
      url := "https://sosovalue.com/tc/research/" ++ r.id }

/-- Observable notifier state: the cursor store plus the ordered lists of
attempted message texts and of successfully delivered ones. -/
structure St where
  store : Store
  attempted : List String
  delivered : List String
deriving DecidableEq, Repr

/-- The `axios.post` call to the Telegram sendMessage endpoint: resolves or
rejects according to the oracle. -/
def axiosPostSendMessage (ok : String → Bool) (text : String) : Except String Unit :=
  if ok text then .ok () else .error "request failed"

/-- Function `sendTelegram` (src/index.js lines 17–27): posts the message and catches
any error, logging and continuing — it never propagates an exception. The
attempt is always recorded; the delivery only on success. -/
def sendTelegram (ok : String → Bool) (text : String) (st : St) : Except String St :=
  match axiosPostSendMessage ok text with
  | .ok () =>
      .ok { st with
              attempted := st.attempted ++ [text]
              delivered := st.delivered ++ [text] }
  | .error _ =>
      .ok { st with attempted := st.attempted ++ [text] }

/-- The message text of the single-article push of `checkAndSendLatest`
(src/index.js line 120). -/
def latestMsg (a : Article) : String :=
  "📢 *SoSoValue 新文章*\n\n*" ++ a.title ++ "*\n🔗 " ++ a.url

/-- Function `checkAndSendLatest` (src/index.js lines 112–123), with the scrape result
passed in: empty scrape returns early; if the newest article's id equals the
stored cursor it returns early; otherwise it sends one message for the newest
article and saves its id as the new cursor. -/
def checkAndSendLatest (ok : String → Bool) (articles : List Article) (st : St) :
    Except String St :=
  match articles with
  | [] => .ok st
  | newest :: _ =>
      if newest.id = getLastId st.store then .ok st
      else
        match sendTelegram ok (latestMsg newest) st with
        | .ok st' => .ok { st' with store := saveLastId st'.store newest.id }
        | .error e => .error e

/-- The text of one startup batch message (src/index.js lines 102–104):
header with the 1-based range `i+1 – i+chunk.length`, then the numbered
entries joined by blank lines. -/
def chunkMsg (i : Nat) (chunk : List Article) : String :=
  "📢 *今天 24 小時內研究文章（" ++ toString (i + 1) ++ "–"
    ++ toString (i + chunk.length) ++ "）*\n\n"
    ++ String.intercalate "\n\n"
        (chunk.enum.map fun p =>
          "*" ++ toString (i + p.1 + 1) ++ ". " ++ p.2.title ++ "*\n🔗 " ++ p.2.url)

/-- The list of batch message texts produced by the `for (i += 20)` loop of
`sendTodayBatch`, one per 20-article slice, starting at offset `i`. -/
def batchMsgs (i : Nat) (articles : List Article) : List String :=
  if h : articles = [] then []
  else chunkMsg i (articles.take 20) :: batchMsgs (i + 20) (articles.drop 20)
termination_by articles.length
decreasing_by
  have h' : 0 < articles.length := List.length_pos.mpr h
  simp [List.length_drop]; omega

/-- The chunked send loop of `sendTodayBatch` (src/index.js lines 100–108):
sends the message for the current 20-article slice, then continues with the
rest. -/
def sendChunks (ok : String → Bool) (i : Nat) (articles : List Article) (st : St) :
    Except String St :=
  if h : articles = [] then .ok st
  else
    match sendTelegram ok (chunkMsg i (articles.take 20)) st with
    | .ok st' => sendChunks ok (i + 20) (articles.drop 20) st'
    | .error e => .error e
termination_by articles.length
decreasing_by
  have h' : 0 < articles.length := List.length_pos.mpr h
  simp [List.length_drop]; omega

/-- Function `sendTodayBatch` (src/index.js lines 96–110), with the scrape result
passed in: empty scrape returns early; otherwise every 20-article chunk is
sent as one message and `articles[0].id` is saved as the cursor afterwards. -/
def sendTodayBatch (ok : String → Bool) (articles : List Article) (st : St) :
    Except String St :=
  match articles with
  | [] => .ok st
  | a :: _ =>
      match sendChunks ok 0 articles st with
      | .ok st' => .ok { st' with store := saveLastId st'.store a.id }
      | .error e => .error e

/-- The startup diagnostic printed when the Telegram credentials are missing
(src/index.js line 13). -/
def configDiag : String := "⛔️ TELEGRAM_TOKEN / TELEGRAM_CHAT_ID 尚未設定！"

/-- Outcome of launching the process: either an immediate `process.exit`
with a code and the diagnostic message, or the Startup cycle ran. -/
inductive RunOutcome where
  | exited (code : Nat) (msg : String)
  | ran (r : Except String St)
deriving Repr

/-- The module top level (src/index.js lines 8–15 then 125–127): the env
values `TELEGRAM_TOKEN` / `TELEGRAM_CHAT_ID` are checked first; if either is
absent or empty the process exits with status 1 and the diagnostic, before
any scrape or delivery; otherwise Startup (`sendTodayBatch`) runs. -/
def runProcess (token chatId : Option String) (ok : String → Bool)
    (articles : List Article) (st : St) : RunOutcome :=
  if !truthy token || !truthy chatId then .exited 1 configDiag
  else .ran (sendTodayBatch ok articles st)

/-- State of the infinite-scroll loop of `scrapeArticles` (src/index.js
lines 58–66) after `n` observations: `(prev, stable)`, starting from
`(0, 0)`; observation `n` reads `obs n` as the current element count and
either increments `stable` (count unchanged) or resets it to 0. -/
def scrollState (obs : Nat → Nat) : Nat → Nat × Nat
  | 0 => (0, 0)
  | n + 1 =>
      let s := scrollState obs n
      if obs n = s.1 then (obs n, s.2 + 1) else (obs n, 0)

/-- Browser lifecycle events of one `scrapeArticles` call. -/
inductive BrowserEv where
  | launch
  | close
deriving DecidableEq, Repr

/-- The browser lifecycle of the primary `scrapeArticles` (src/index.js
lines 32–94): `puppeteer.launch`, then the whole navigation/extraction body
inside `try { ... } finally { await browser.close() }` — the body's result
(or exception) is abstracted as `body`, and the browser is closed on both
paths before the result propagates. -/
def scrapeArticlesEvents (body : Except String (List Article)) :
    List BrowserEv × Except String (List Article) :=
  match body with
  | .ok rows => ([.launch, .close], .ok rows)
  | .error e => ([.launch, .close], .error e)

/-- The browser lifecycle of the second-revision `scrapeArticles`
(src/index.js lines 173–224): `puppeteer.launch`, then the
navigation/extraction body with no `try`/`finally`; `await browser.close()`
runs only after the body succeeds, so an exception propagates without the
close ever happening. -/
def scrapeArticlesEventsRev2 (body : Except String (List Article)) :
    List BrowserEv × Except String (List Article) :=
  match body with
  | .ok rows => ([.launch, .close], .ok rows)
  | .error e => ([.launch], .error e)

/-- A concrete article with the given id, shaped like `scrapeArticles`
output. -/
def art (id : String) : Article :=
  { id := id
    title := "A" ++ id
    url := "https://sosovalue.com/tc/research/" ++ id }

def art101 : Article := art "101"

def art102 : Article := art "102"

def art103 : Article := art "103"

def art104 : Article := art "104"

def art105 : Article := art "105"

/-- A concrete raw row that survives the extractor filter. -/
def demoRow : RawRow :=
  { title := some "BTC 深度研究"
    id := "175123456789012345678"
    when := "3 小時前" }

/-- Function `sendTelegram` of the second revision (src/index.js
lines 157–162): the POST is NOT wrapped in `try`/`catch`, so a rejected
request propagates to the caller as an exception (the error case carries
only the rejection message; the caller's state is lost with the throw). -/
def sendTelegramRev2 (ok : String → Bool) (text : String) (st : St) :
    Except String St :=
  match axiosPostSendMessage ok text with
  | .ok () =>
      .ok { st with
              attempted := st.attempted ++ [text]
              delivered := st.delivered ++ [text] }
  | .error e => .error e

/-- The chunked send loop of the second revision's `sendTodayBatch`
(src/index.js lines 231–241), which awaits `sendTelegramRev2`: a rejected
send aborts the loop before the remaining chunks. -/
def sendChunksRev2 (ok : String → Bool) (i : Nat) (articles : List Article)
    (st : St) : Except String St :=
  if h : articles = [] then .ok st
  else
    match sendTelegramRev2 ok (chunkMsg i (articles.take 20)) st with
    | .ok st' => sendChunksRev2 ok (i + 20) (articles.drop 20) st'
    | .error e => .error e
termination_by articles.length
decreasing_by
  have h' : 0 < articles.length := List.length_pos.mpr h
  simp [List.length_drop]; omega

/-- The second revision's `sendTodayBatch` (src/index.js lines 227–243):
same chunking, but built on the catch-less `sendTelegramRev2`, so a
delivery failure propagates (the startup IIFE at lines 263–266 does not
catch it either) and `saveLastId` is never reached. -/
def sendTodayBatchRev2 (ok : String → Bool) (articles : List Article) (st : St) :
    Except String St :=
  match articles with
  | [] => .ok st
  | a :: _ =>
      match sendChunksRev2 ok 0 articles st with
      | .ok st' => .ok { st' with store := saveLastId st'.store a.id }
      | .error e => .error e

/-- The second revision's module top (src/index.js lines 149–154 and
263–276): `TELEGRAM_TOKEN` and `TELEGRAM_CHAT_ID` are hardcoded string
constants, the environment is never consulted, and no check or
`process.exit` exists — startup proceeds straight to the batch regardless
of the environment values. -/
def runProcessRev2 (envToken envChatId : Option String) (ok : String → Bool)
    (articles : List Article) (st : St) : RunOutcome :=
  .ran (sendTodayBatchRev2 ok articles st)

/-- A concrete 21-article scrape result (two chunks of the 20-per-message
batching), ids `121` down to `101`, newest-first. -/
def arts21 : List Article :=
  [art "121", art "120", art "119", art "118", art "117", art "116", art "115",
   art "114", art "113", art "112", art "111", art "110", art "109", art "108",
   art "107", art "106", art "105", art "104", art "103", art "102", art "101"]

/-! ## Helper lemmas -/

/-- Lemma: `sendTelegram` never propagates an exception: it returns the state with
the attempt recorded, and the delivery recorded exactly on success. -/
theorem sendTelegram_ok (ok : String → Bool) (text : String) (st : St) :
    sendTelegram ok text st =
      .ok { st with
              attempted := st.attempted ++ [text]
              delivered := st.delivered ++ if ok text then [text] else [] } := by
  cases h : ok text <;> simp [sendTelegram, axiosPostSendMessage, h]

theorem batchMsgs_nil (i : Nat) : batchMsgs i [] = [] := by
  rw [batchMsgs]
  simp

theorem batchMsgs_cons (i : Nat) (a : Article) (rest : List Article) :
    batchMsgs i (a :: rest) =
      chunkMsg i ((a :: rest).take 20) :: batchMsgs (i + 20) ((a :: rest).drop 20) := by
  rw [batchMsgs]
  simp

/-- Closed form of the chunked send loop: it always succeeds, leaves the
store alone, attempts every chunk message in order, and delivers exactly the
chunk messages the oracle accepts. -/
theorem sendChunks_spec (ok : String → Bool) :
    ∀ (n : Nat) (articles : List Article), articles.length ≤ n →
      ∀ (i : Nat) (st : St),
        sendChunks ok i articles st =
          .ok { store := st.store
                attempted := st.attempted ++ batchMsgs i articles
                delivered := st.delivered ++ (batchMsgs i articles).filter ok } := by
  intro n
  induction n with
  | zero =>
      intro articles hlen i st
      have hnil : articles = [] := List.eq_nil_of_length_eq_zero (Nat.le_zero.mp hlen)
      subst hnil
      simp [sendChunks, batchMsgs_nil]
  | succ n ih =>
      intro articles hlen i st
      match articles with
      | [] => simp [sendChunks, batchMsgs_nil]
      | a :: rest =>
          rw [sendChunks]
          simp only [reduceCtorEq, dite_false, sendTelegram_ok]
          have hdrop : ((a :: rest).drop 20).length ≤ n := by
            simp only [List.length_drop, List.length_cons]
            simp only [List.length_cons] at hlen
            omega
          rw [ih ((a :: rest).drop 20) hdrop]
          rw [batchMsgs_cons]
          simp only [List.filter_cons, List.append_assoc, Except.ok.injEq, St.mk.injEq]
          split <;> simp_all

/-- Closed form of `sendTodayBatch` on a non-empty scrape: every chunk
message is attempted, the accepted ones are delivered, and the newest id is
saved as the cursor. -/
theorem sendTodayBatch_spec (ok : String → Bool) (a : Article) (rest : List Article)
    (st : St) :
    sendTodayBatch ok (a :: rest) st =
      .ok { store := saveLastId st.store a.id
            attempted := st.attempted ++ batchMsgs 0 (a :: rest)
            delivered := st.delivered ++ (batchMsgs 0 (a :: rest)).filter ok } := by
  have h := sendChunks_spec ok (a :: rest).length (a :: rest) le_rfl 0 st
  simp [sendTodayBatch, h]

theorem scrollState_fst (obs : Nat → Nat) (n : Nat) :
    (scrollState obs (n + 1)).1 = obs n := by
  simp only [scrollState]
  split <;> rfl

theorem scrollState_snd (obs : Nat → Nat) (n : Nat) :
    (scrollState obs (n + 1)).2 =
      if obs n = (scrollState obs n).1 then (scrollState obs n).2 + 1 else 0 := by
  simp only [scrollState]
  split <;> rfl

theorem scrollState_snd_le (obs : Nat → Nat) : ∀ n, (scrollState obs n).2 ≤ n := by
  intro n
  induction n with
  | zero => simp [scrollState]
  | succ n ih =>
      rw [scrollState_snd]
      split <;> omega

/-- A `some`-valued truthy option holds a non-empty string. -/
theorem truthy_getD {o : Option String} (h : truthy o = true) : o.getD "" ≠ "" := by
  cases o with
  | none => simp [truthy] at h
  | some s =>
      simp only [truthy, Bool.not_eq_true'] at h
      simp only [Option.getD_some]
      intro he
      rw [he] at h
      exact absurd h (by decide)

/-- A string with `isEmpty = false` is not the empty string. -/
theorem ne_empty_of_isEmpty_false {s : String} (h : s.isEmpty = false) : s ≠ "" := by
  intro he
  rw [he] at h
  exact absurd h (by decide)

/-! ## Claim theorems -/

/-- Claim C1, counterexample: with cursor `103` stored, a Polling tick whose
scrape is `[105, 104, 103, 102, 101]` sends exactly ONE message (for the
newest id `105`), not the two messages (`104` then `105`) the claim
states. -/
theorem C1_counterexample :
    checkAndSendLatest (fun _ => true) [art105, art104, art103, art102, art101]
        { store := { file := some "103" }, attempted := [], delivered := [] } =
      .ok { store := { file := some "105" }
            attempted := [latestMsg art105]
            delivered := [latestMsg art105] } ∧
    [latestMsg art105].length ≠ 2 :=
  ⟨rfl, by decide⟩

/-- Claim C1 as amended: Startup on scrape `[103, 102, 101]` with no cursor
sends one batch message enumerating all 3 and persists cursor `103`; the
subsequent Polling tick on scrape `[105, 104, 103, 102, 101]` sends exactly
one message, for the newest id `105` (skipping `104`), and updates the
cursor to `105`. -/
theorem C1_amended_scenario :
    sendTodayBatch (fun _ => true) [art103, art102, art101]
        { store := { file := none }, attempted := [], delivered := [] } =
      .ok { store := { file := some "103" }
            attempted := [chunkMsg 0 [art103, art102, art101]]
            delivered := [chunkMsg 0 [art103, art102, art101]] } ∧
    checkAndSendLatest (fun _ => true) [art105, art104, art103, art102, art101]
        { store := { file := some "103" }, attempted := [], delivered := [] } =
      .ok { store := { file := some "105" }
            attempted := [latestMsg art105]
            delivered := [latestMsg art105] } := by
  refine ⟨?_, rfl⟩
  rw [sendTodayBatch_spec, batchMsgs_cons]
  rw [show List.take 20 [art103, art102, art101] = [art103, art102, art101] from rfl]
  rw [show List.drop 20 [art103, art102, art101] = ([] : List Article) from rfl]
  rw [batchMsgs_nil]
  rfl

/-- Claim C2: every record produced by the Extractor has a non-empty title
and a non-empty id; every row surviving the filter additionally has a
recency token containing the relative-past marker or today's date label;
rows failing the filter are discarded. -/
theorem C2_extractor_filter (today : String) (rows : List RawRow) :
    (∀ a ∈ scrapeArticles today rows, a.title ≠ "" ∧ a.id ≠ "") ∧
    (∀ r ∈ keptRows today rows,
        truthy r.title = true ∧ r.id ≠ "" ∧
          (hasSub r.when "前" = true ∨ hasSub r.when today = true)) ∧
    (∀ r ∈ rows, rowKeep today r = false → r ∉ keptRows today rows) := by
  have hkept : ∀ r ∈ keptRows today rows,
      truthy r.title = true ∧ r.id ≠ "" ∧
        (hasSub r.when "前" = true ∨ hasSub r.when today = true) := by
    intro r hr
    have hk : rowKeep today r = true := (List.mem_filter.mp hr).2
    simp only [rowKeep, Bool.and_eq_true, Bool.or_eq_true, Bool.not_eq_true'] at hk
    exact ⟨hk.1.1, ne_empty_of_isEmpty_false hk.1.2, hk.2⟩
  refine ⟨?_, hkept, ?_⟩
  · intro a ha
    obtain ⟨r, hr, hmap⟩ := List.mem_map.mp ha
    obtain ⟨h1, h2, _⟩ := hkept r hr
    subst hmap
    exact ⟨truthy_getD h1, h2⟩
  · intro r _ hfalse hmem
    have hk : rowKeep today r = true := (List.mem_filter.mp hmem).2
    rw [hfalse] at hk
    cases hk

/-- Witness for C2 at a concrete rendered document of one row. -/
theorem C2_witness :
    truthy demoRow.title = true ∧ demoRow.id ≠ "" ∧
      (hasSub demoRow.when "前" = true ∨ hasSub demoRow.when "6月19日" = true) :=
  (C2_extractor_filter "6月19日" [demoRow]).2.1 demoRow (by decide)

/-- Claim C3: a Polling tick whose scrape's newest id equals the stored
cursor sends no notification and leaves the state (cursor included)
unchanged. -/
theorem C3_idempotent_tick (ok : String → Bool) (a : Article) (rest : List Article)
    (st : St) (h : a.id = getLastId st.store) :
    checkAndSendLatest ok (a :: rest) st = .ok st := by
  simp [checkAndSendLatest, h]

/-- Witness for C3 at a concrete input. -/
theorem C3_witness :
    checkAndSendLatest (fun _ => true) [art103, art102]
        { store := { file := some "103" }, attempted := [], delivered := [] } =
      .ok { store := { file := some "103" }, attempted := [], delivered := [] } :=
  C3_idempotent_tick (fun _ => true) art103 [art102]
    { store := { file := some "103" }, attempted := [], delivered := [] } (by decide)

/-- Claim C4: a cycle whose scrape is empty sends nothing and leaves the
state (cursor included) unchanged — both for the Polling tick and for the
Startup batch. -/
theorem C4_empty_scrape (ok : String → Bool) (st : St) :
    checkAndSendLatest ok [] st = .ok st ∧ sendTodayBatch ok [] st = .ok st :=
  ⟨rfl, rfl⟩

/-- Claim C5, counterexample: with cursor `103` stored and a Polling tick
scraping `[105]`, the only delivery attempt fails (`delivered = []`), and
the cursor is nevertheless overwritten with `105` — it does not keep its
prior value `103`. -/
theorem C5_counterexample :
    checkAndSendLatest (fun _ => false) [art105]
        { store := { file := some "103" }, attempted := [], delivered := [] } =
      .ok { store := { file := some "105" }
            attempted := [latestMsg art105]
            delivered := [] } ∧
    ({ file := some "105" } : Store) ≠ { file := some "103" } :=
  ⟨rfl, by decide⟩

/-- Every-element-rejecting filter yields the empty list. -/
theorem filter_const_false (l : List String) : l.filter (fun _ => false) = [] := by
  induction l with
  | nil => rfl
  | cons x xs ih => simp [List.filter_cons, ih]

/-- Claim C5 as amended: in both cycles the cursor is overwritten only when
at least one notification was attempted (a cycle that attempts none leaves
the store unchanged), but successful dispatch is not required — if every
delivery attempt of the cycle fails, the Polling tick and the Startup batch
each still overwrite the cursor with the newest id. -/
theorem C5_amended_cursor_on_attempt (a : Article) (rest : List Article) (st : St)
    (h : ¬ a.id = getLastId st.store) :
    checkAndSendLatest (fun _ => false) (a :: rest) st =
      .ok { store := saveLastId st.store a.id
            attempted := st.attempted ++ [latestMsg a]
            delivered := st.delivered } ∧
    sendTodayBatch (fun _ => false) (a :: rest) st =
      .ok { store := saveLastId st.store a.id
            attempted := st.attempted ++ batchMsgs 0 (a :: rest)
            delivered := st.delivered } ∧
    (∀ (ok : String → Bool) (articles : List Article) (st' : St),
        checkAndSendLatest ok articles st = .ok st' →
        st'.attempted = st.attempted → st'.store = st.store) ∧
    (∀ (ok : String → Bool) (articles : List Article) (st' : St),
        sendTodayBatch ok articles st = .ok st' →
        st'.attempted = st.attempted → st'.store = st.store) := by
  refine ⟨?_, ?_, ?_, ?_⟩
  · simp [checkAndSendLatest, h, sendTelegram, axiosPostSendMessage]
  · rw [sendTodayBatch_spec, filter_const_false, List.append_nil]
  · intro ok articles st' heq hatt
    match articles with
    | [] =>
        simp only [checkAndSendLatest, Except.ok.injEq] at heq
        subst heq
        rfl
    | newest :: rest' =>
        by_cases hid : newest.id = getLastId st.store
        · simp only [checkAndSendLatest, hid, if_pos, Except.ok.injEq] at heq
          subst heq
          rfl
        · rw [show checkAndSendLatest ok (newest :: rest') st =
                .ok { store := saveLastId st.store newest.id
                      attempted := st.attempted ++ [latestMsg newest]
                      delivered := st.delivered ++
                        if ok (latestMsg newest) then [latestMsg newest] else [] } by
              simp [checkAndSendLatest, hid, sendTelegram_ok]] at heq
          simp only [Except.ok.injEq] at heq
          subst heq
          simp at hatt
  · intro ok articles st' heq hatt
    match articles with
    | [] =>
        simp only [sendTodayBatch, Except.ok.injEq] at heq
        subst heq
        rfl
    | b :: rest2 =>
        rw [sendTodayBatch_spec] at heq
        simp only [Except.ok.injEq] at heq
        subst heq
        rw [batchMsgs_cons] at hatt
        simp at hatt

/-- Witness for C5's amended theorem at a concrete input. -/
theorem C5_witness :
    checkAndSendLatest (fun _ => false) [art105]
        { store := { file := some "103" }, attempted := [], delivered := [] } =
      .ok { store := { file := some "105" }
            attempted := [latestMsg art105]
            delivered := [] } :=
  (C5_amended_cursor_on_attempt art105 []
      { store := { file := some "103" }, attempted := [], delivered := [] }
      (by decide)).1

/-- Claim C6 (code bug in the second revision): on a 21-article startup
batch (two chunk messages) where every POST rejects, the primary revision's
`sendTodayBatch` tolerates the failures — it still attempts both chunk
messages in order, delivers none, completes, and saves the cursor — but the
second revision's `sendTodayBatch`, whose `sendTelegram` has no
`try`/`catch`, aborts on the first rejected send: the second chunk is never
attempted, no cursor is saved, and the exception propagates out of the
batch (nothing at startup catches it). -/
theorem C6_rev2_send_failure_aborts :
    sendTodayBatch (fun _ => false) arts21
        { store := { file := none }, attempted := [], delivered := [] } =
      .ok { store := { file := some "121" }
            attempted := [chunkMsg 0 (arts21.take 20), chunkMsg 20 (arts21.drop 20)]
            delivered := [] } ∧
    sendTodayBatchRev2 (fun _ => false) arts21
        { store := { file := none }, attempted := [], delivered := [] } =
      .error "request failed" := by
  constructor
  · rw [show arts21 = art "121" :: arts21.tail from rfl, sendTodayBatch_spec,
        filter_const_false, List.append_nil, List.nil_append, batchMsgs_cons]
    rw [show List.drop 20 (art "121" :: arts21.tail) = [art "101"] from rfl]
    rw [batchMsgs_cons]
    rw [show List.drop 20 [art "101"] = ([] : List Article) from rfl, batchMsgs_nil]
    rfl
  · rw [show arts21 = art "121" :: arts21.tail from rfl, sendTodayBatchRev2]
    rw [sendChunksRev2]
    simp [sendTelegramRev2, axiosPostSendMessage]

/-- Claim C7 (code bug in the second revision): the primary revision's
module top exits with status 1 and the diagnostic whenever the token or the
chat id is absent or empty, before any scrape or delivery; the second
revision hardcodes both credentials and has no check and no `process.exit`,
so whatever the environment holds, its startup never exits — it proceeds
straight to the scrape-and-send batch. -/
theorem C7_rev2_no_config_check :
    (∀ (token chatId : Option String) (ok : String → Bool) (articles : List Article)
        (st : St), truthy token = false ∨ truthy chatId = false →
        runProcess token chatId ok articles st = .exited 1 configDiag) ∧
    (∀ (envToken envChatId : Option String) (ok : String → Bool)
        (articles : List Article) (st : St) (code : Nat) (msg : String),
        runProcessRev2 envToken envChatId ok articles st ≠ .exited code msg) := by
  constructor
  · intro token chatId ok articles st h
    rcases h with h | h <;> simp [runProcess, h]
  · intro envToken envChatId ok articles st code msg
    simp [runProcessRev2]

/-- Claim C8 (code bug in the second revision): the primary `scrapeArticles`
(`try`/`finally`) emits `close` on both the success and the exception path,
but the second revision's `scrapeArticles` never emits `close` when the
extraction body throws — the browser leaks there, contradicting the
always-release contract. -/
theorem C8_browser_release :
    (scrapeArticlesEvents (.error "extraction failed")).1 =
        [BrowserEv.launch, BrowserEv.close] ∧
    (scrapeArticlesEvents (.ok [art103])).1 = [BrowserEv.launch, BrowserEv.close] ∧
    BrowserEv.close ∉ (scrapeArticlesEventsRev2 (.error "extraction failed")).1 :=
  ⟨rfl, rfl, by decide⟩

/-- Claim C9: the infinite-scroll loop stops exactly when the element count
has remained unchanged for 3 consecutive observations — `stable` reaches 3
at step `n + 3` iff the last three observations each matched the previous
count (`(scrollState obs k).1`), and never within the first 3 steps — and
if the observed count eventually stops changing, the loop terminates. -/
theorem C9_scroll_termination (obs : Nat → Nat) (N : Nat)
    (h : ∀ m, N ≤ m → obs m = obs N) :
    (∃ n, 3 ≤ (scrollState obs n).2) ∧
    (∀ n, 3 ≤ (scrollState obs (n + 3)).2 ↔
        (obs (n + 2) = (scrollState obs (n + 2)).1 ∧
         obs (n + 1) = (scrollState obs (n + 1)).1 ∧
         obs n = (scrollState obs n).1)) ∧
    (∀ n, n < 3 → (scrollState obs n).2 < 3) := by
  have hiff : ∀ n, 3 ≤ (scrollState obs (n + 3)).2 ↔
      (obs (n + 2) = (scrollState obs (n + 2)).1 ∧
       obs (n + 1) = (scrollState obs (n + 1)).1 ∧
       obs n = (scrollState obs n).1) := by
    intro n
    constructor
    · intro h3
      rw [show n + 3 = n + 2 + 1 from by omega, scrollState_snd] at h3
      by_cases e2 : obs (n + 2) = (scrollState obs (n + 2)).1
      · rw [if_pos e2] at h3
        have h2 : 2 ≤ (scrollState obs (n + 2)).2 := by omega
        rw [show n + 2 = n + 1 + 1 from by omega, scrollState_snd] at h2
        by_cases e1 : obs (n + 1) = (scrollState obs (n + 1)).1
        · rw [if_pos e1] at h2
          have h1 : 1 ≤ (scrollState obs (n + 1)).2 := by omega
          rw [scrollState_snd] at h1
          by_cases e0 : obs n = (scrollState obs n).1
          · exact ⟨e2, e1, e0⟩
          · rw [if_neg e0] at h1
            omega
        · rw [if_neg e1] at h2
          omega
      · rw [if_neg e2] at h3
        omega
    · rintro ⟨e2, e1, e0⟩
      rw [show n + 3 = n + 2 + 1 from by omega, scrollState_snd, if_pos e2,
          show n + 2 = n + 1 + 1 from by omega, scrollState_snd, if_pos e1,
          scrollState_snd, if_pos e0]
      omega
  refine ⟨⟨N + 1 + 3, ?_⟩, hiff, ?_⟩
  · refine (hiff (N + 1)).mpr ⟨?_, ?_, ?_⟩
    · rw [show N + 1 + 2 = N + 2 + 1 from by omega, scrollState_fst,
          h (N + 2 + 1) (by omega), h (N + 2) (by omega)]
    · rw [show N + 1 + 1 = N + 1 + 1 from rfl, scrollState_fst,
          h (N + 1 + 1) (by omega), h (N + 1) (by omega)]
    · rw [show N + 1 = N + 1 from rfl, scrollState_fst, h (N + 1) (by omega)]
  · intro n hn
    have := scrollState_snd_le obs n
    omega

/-- Witness for C9 at a concrete input: a constant observation count
terminates the loop with `stable = 3` after 4 observations. -/
theorem C9_witness : 3 ≤ (scrollState (fun _ => 7) 4).2 :=
  ((C9_scroll_termination (fun _ => 7) 0 (fun _ _ => rfl)).2.1 1).mpr (by decide)

/-- Claim C10: the cursor store round-trips — saving an id with no leading
or trailing whitespace and loading it back returns exactly that id, and
loading from a store where nothing was ever saved returns the empty
string. -/
theorem C10_cursor_roundtrip (s : Store) (id : String) (h : trimChars id = id) :
    getLastId (saveLastId s id) = id ∧ getLastId { file := none } = "" :=
  ⟨by simp [getLastId, saveLastId, h], rfl⟩

/-- Witness for C10 at a concrete all-digit article id. -/
theorem C10_witness :
    getLastId (saveLastId { file := none } "175123456789012345678") =
      "175123456789012345678" :=
  (C10_cursor_roundtrip { file := none } "175123456789012345678" (by decide)).1
